import Mathlib

/-!
Shallow embedding of `homework.py` (AnaKuzi/homework_bot): a polling
Telegram notifier for homework review statuses.

Python values that occur in this program are modelled by `PyVal`;
Python exceptions by `PyError`.  Each function of the source file is
translated into a Lean function of the same name; the external world of
one polling cycle (clock, HTTP response, Telegram delivery outcome) is
passed in explicitly as a `CycleEnv`.
-/

/-- The Python values this program manipulates: `None`, ints, strings,
lists and string-keyed dicts (JSON payloads decode into these). -/
inductive PyVal where
  | none
  | int (n : Int)
  | str (s : String)
  | list (xs : List PyVal)
  | dict (kvs : List (String × PyVal))

/-- Python truthiness (`bool(v)`) for the values above: `None`, `0`, empty
string, empty list and empty dict are falsy. -/
def pyTruthy : PyVal → Bool
  | .none => false
  | .int n => n != 0
  | .str s => s != ""
  | .list xs => !xs.isEmpty
  | .dict kvs => !kvs.isEmpty

mutual
/-- CPython `repr` for the modelled values (string quoting written with
escaped quote characters). -/
def pyRepr : PyVal → String
  | .none => "None"
  | .int n => toString n
  | .str s => "\x27" ++ s ++ "\x27"
  | .list xs => "[" ++ pyReprList xs ++ "]"
  | .dict kvs => "\x7b" ++ pyReprDict kvs ++ "\x7d"

def pyReprList : List PyVal → String
  | [] => ""
  | [x] => pyRepr x
  | x :: xs => pyRepr x ++ ", " ++ pyReprList xs

def pyReprDict : List (String × PyVal) → String
  | [] => ""
  | [(k, v)] => "\x27" ++ k ++ "\x27: " ++ pyRepr v
  | (k, v) :: kvs => "\x27" ++ k ++ "\x27: " ++ pyRepr v ++ ", " ++ pyReprDict kvs
end

/-- CPython `str` (as used by f-string interpolation): identical to `repr`
except on strings, which are rendered unquoted. -/
def pyStr : PyVal → String
  | .str s => s
  | v => pyRepr v

/-- `d.get(k)`: the value stored under `k`, or `None` when absent (Python
dict keys are unique; the first binding wins). -/
def pyGet (v : PyVal) (k : String) : PyVal :=
  match v with
  | .dict kvs => (kvs.lookup k).getD .none
  | _ => .none

/-- `k in d.keys()`. -/
def pyHasKey (v : PyVal) (k : String) : Bool :=
  match v with
  | .dict kvs => kvs.any (fun kv => kv.1 == k)
  | _ => false

/-- The Python exceptions this program raises or handles.
`httpRequestError`, `anotherEndpointException` and `sendMessageException`
are the custom classes imported from the repository's `exceptions` module,
which is not part of the source tree; modelled from the spec: each is a
distinct error kind, i.e. a direct subclass of `Exception` matching none
of the narrower `except` clauses (`json.decoder.JSONDecodeError`,
`requests.RequestException`, `telegram.TelegramError`). -/
inductive PyError where
  | typeError (msg : String)
  | keyError (msg : String)
  | attributeError (msg : String)
  | httpRequestError (msg : String)
  | anotherEndpointException (msg : String)
  | sendMessageException (msg : String)
deriving DecidableEq, Repr

/-- CPython `str(e)` as interpolated by `f'...{error}'`: the exception
message, except that `KeyError` renders the `repr` of its argument
(CPython prints `KeyError` args quoted). -/
def PyError.text : PyError → String
  | .typeError m => m
  | .keyError m => "\x27" ++ m ++ "\x27"
  | .attributeError m => m
  | .httpRequestError m => m
  | .anotherEndpointException m => m
  | .sendMessageException m => m

/-- `HOMEWORK_STATUSES` (homework.py lines 28-32). -/
def HOMEWORK_STATUSES : List (String × String) :=
  [("approved", "Работа проверена: ревьюеру всё понравилось. Ура!"),
   ("reviewing", "Работа взята на проверку ревьюером."),
   ("rejected", "Работа проверена: у ревьюера есть замечания.")]

/-- `homework_status not in HOMEWORK_STATUSES` / `HOMEWORK_STATUSES[...]`:
dict lookup keyed by a Python value (only a string can match). -/
def statusLookup : PyVal → Option String
  | .str s => HOMEWORK_STATUSES.lookup s
  | _ => Option.none

/-- `parse_status` (homework.py lines 100-107): extract the homework status
and compose the notification text; unknown status raises `KeyError`.
Called only on dict elements of a validated `homeworks` list; on a
non-dict, `.get` would raise `AttributeError`. -/
def parse_status (homework : PyVal) : Except PyError String :=
  match homework with
  | .dict _ =>
    let homework_name := pyGet homework "homework_name"
    let homework_status := pyGet homework "status"
    match statusLookup homework_status with
    | Option.none =>
        .error (.keyError ("Статус неизвестен: " ++ pyStr homework_status))
    | Option.some verdict =>
        .ok ("Изменился статус проверки работы \"" ++ pyStr homework_name ++ "\". " ++ verdict)
  | _ => .error (.attributeError "object has no attribute get")

/-- `check_response` (homework.py lines 85-97): structural validation of
the decoded payload; returns the `homeworks` list.  There is no
empty-mapping check: an empty dict falls through to the missing-key
test for `homeworks`. -/
def check_response (response : PyVal) : Except PyError (List PyVal) :=
  match response with
  | .dict _ =>
    let homeworks := pyGet response "homeworks"
    if !pyHasKey response "homeworks" then
      .error (.keyError "Ключа homeworks не существует")
    else if !pyHasKey response "current_date" then
      .error (.keyError "Ключа current_date не существует")
    else
      match homeworks with
      | .list xs => .ok xs
      | _ => .error (.keyError "В homeworks лежит не список")
  | _ => .error (.typeError "Ответ не является словарем")

/-- The three environment secrets (`PRACTICUM_TOKEN`, `TELEGRAM_TOKEN`,
`TELEGRAM_CHAT_ID`, homework.py lines 19-21); `os.getenv` yields `None`
when a variable is unset. -/
structure Env where
  PRACTICUM_TOKEN : Option String
  TELEGRAM_TOKEN : Option String
  TELEGRAM_CHAT_ID : Option String

/-- Python truthiness of an `os.getenv` result: `None` and `''` are falsy. -/
def envTruthy : Option String → Bool
  | Option.none => false
  | Option.some s => s != ""

/-- `check_tokens` (homework.py lines 110-112):
`all((PRACTICUM_TOKEN, TELEGRAM_TOKEN, TELEGRAM_CHAT_ID))`. -/
def check_tokens (e : Env) : Bool :=
  envTruthy e.PRACTICUM_TOKEN && envTruthy e.TELEGRAM_TOKEN && envTruthy e.TELEGRAM_CHAT_ID

/-- `ENDPOINT` (homework.py line 24). -/
def ENDPOINT : String := "https://practicum.yandex.ru/api/user_api/homework_statuses/"

/-- `str(HEADERS)` where `HEADERS = {'Authorization': f'OAuth {PRACTICUM_TOKEN}'}`
(homework.py line 25); `PRACTICUM_TOKEN` is `None` when unset. -/
def HEADERS_text (practicum_token : Option String) : String :=
  "\x7b\x27Authorization\x27: \x27OAuth " ++
    (match practicum_token with
     | Option.none => "None"
     | Option.some s => s) ++ "\x27\x7d"

/-- The `requests.Response` fields the program reads.  `json` is the
decoded body, `Option.none` when `response.json()` raises
`json.decoder.JSONDecodeError`. -/
structure HttpResponse where
  status_code : Nat
  reason : String
  text : String
  json : Option PyVal

/-- Outcome of the single `requests.get` call of one fetch: either the
transport layer fails (`RequestException`: connection refused, timeout,
DNS, TLS) or an HTTP response arrives. -/
inductive FetchEnv where
  | transportError (msg : String)
  | response (r : HttpResponse)

/-- The query parameters of the fetch (homework.py lines 57-58):
`timestamp = current_timestamp or int(time.time())`, then
`params = {'from_date': timestamp}`.  A falsy cursor (`0`, `None`, ...)
is replaced by the current wall-clock time. -/
def fetchParams (current_timestamp : PyVal) (now : Int) : List (String × PyVal) :=
  [("from_date", if pyTruthy current_timestamp then current_timestamp else .int now)]

/-- The message of the `HTTPRequestError` raised for a non-200 status
(homework.py lines 66-74): seven adjacent f-string literals concatenated
without separators. -/
def httpErrorMessage (practicum_token : Option String) (r : HttpResponse)
    (params : List (String × PyVal)) : String :=
  "Начинаем поиск ошибки" ++
  "Проверяем значение status_code: " ++ toString r.status_code ++
  "Проверяем значение reason: " ++ r.reason ++
  "Проверяем значение сообщения: " ++ r.text ++
  "Проверяем ссылку endpoint-а: " ++ ENDPOINT ++
  "Проверяем значение headers: " ++ HEADERS_text practicum_token ++
  "Проверяем значения params: " ++ pyRepr (.dict params)

/-- `get_api_answer` (homework.py lines 55-82).  The entire body runs
inside one `try`:
* a transport failure is caught by `except RequestException as error`,
  whose handler `raise error(...)` calls the exception instance and so
  raises a `TypeError`, which no later clause of the same `try` catches;
* an undecodable 200 body is caught by `except json.decoder.JSONDecodeError
  as error`, whose handler has the same instance-call slip, raising
  `TypeError`;
* the `HTTPRequestError` raised for a non-200 status is itself caught by
  `except Exception` of the same `try` and re-raised as
  `AnotherEndpointException`, so `HTTPRequestError` never escapes this
  function. -/
def get_api_answer (practicum_token : Option String) (current_timestamp : PyVal)
    (now : Int) (env : FetchEnv) : Except PyError PyVal :=
  let params := fetchParams current_timestamp now
  match env with
  | .transportError _ =>
      .error (.typeError "exception instance is not callable")
  | .response r =>
      if r.status_code == 200 then
        match r.json with
        | Option.some v => .ok v
        | Option.none => .error (.typeError "exception instance is not callable")
      else
        .error (.anotherEndpointException
          ("Ошибка при запросе к " ++ ENDPOINT ++ ": " ++
            httpErrorMessage practicum_token r params))

/-- `send_message` (homework.py lines 44-52): one `bot.send_message`
attempt; a `telegram.TelegramError` is re-raised as
`SendMessageException`.  `sendOk` is whether the Telegram delivery
succeeds, `sendErr` the `TelegramError` text when it does not. -/
def send_message (sendOk : Bool) (sendErr : String) : Except PyError Unit :=
  if sendOk then .ok ()
  else .error (.sendMessageException ("Ошибка при отправке сообщения " ++ sendErr))

/-- The loop's mutable state (homework.py lines 121-122):
`current_timestamp` (assigned `response.get('current_date')` on a send,
hence an arbitrary `PyVal`) and `old_message`. -/
structure LoopState where
  current_timestamp : PyVal
  old_message : String

/-- The external world of one cycle: the wall clock (read only when the
cursor is falsy), the fetch outcome, and whether the (at most one)
Telegram delivery of this cycle succeeds. -/
structure CycleEnv where
  now : Int
  fetch : FetchEnv
  sendOk : Bool
  sendErr : String

/-- Outcome of one iteration of the `while True` body: either the cycle
reaches `finally`/`time.sleep` and the loop continues, or an exception
escapes the `try`/`except` block and the process dies.  `sent` lists the
messages actually delivered to the chat this cycle. -/
inductive CycleResult where
  | ok (s : LoopState) (sent : List String)
  | crash (s : LoopState) (sent : List String) (e : PyError)

/-- The loop state carried out of a cycle. -/
def CycleResult.state : CycleResult → LoopState
  | .ok s _ => s
  | .crash s _ _ => s

/-- The messages delivered during a cycle. -/
def CycleResult.sent : CycleResult → List String
  | .ok _ m => m
  | .crash _ m _ => m

/-- The `except` chain of `main` (homework.py lines 138-152), applied when
the `try` body raises `e`:
* `SendMessageException` → logged only;
* `HTTPRequestError` → the handler's f-string reads `response.url` on the
  dict bound by `get_api_answer` (or on no binding at all), raising
  `AttributeError`/`NameError` out of the loop — unreachable in fact,
  since `get_api_answer` re-wraps every `HTTPRequestError`;
* anything else → catch-all: compose the diagnostic
  `f'Сбой в работе программы: {error}'` and, if it differs from
  `old_message`, `send_message` it; a `SendMessageException` raised there
  is inside an `except` clause, caught by nothing, and kills the loop. -/
def handleError (st : LoopState) (env : CycleEnv) (e : PyError) : CycleResult :=
  match e with
  | .sendMessageException _ => .ok st []
  | .httpRequestError _ =>
      .crash st [] (.attributeError "dict object has no attribute url")
  | _ =>
      let message := "Сбой в работе программы: " ++ e.text
      if message != st.old_message then
        match send_message env.sendOk env.sendErr with
        | .ok _ => .ok { st with old_message := message } [message]
        | .error e2 => .crash st [] e2
      else .ok st []

/-- One iteration of the `while True` body of `main`
(homework.py lines 123-155): fetch, validate, derive the message from the
first homework, deduplicate against `old_message`, send, and only then
update `old_message` and assign `response.get('current_date')` to the
cursor; the `else` branch (message unchanged) only logs.  Any exception
goes to `handleError`. -/
def cycle (practicum_token : Option String) (st : LoopState) (env : CycleEnv) :
    CycleResult :=
  match get_api_answer practicum_token st.current_timestamp env.now env.fetch with
  | .error e => handleError st env e
  | .ok response =>
    match check_response response with
    | .error e => handleError st env e
    | .ok homeworks =>
      match homeworks with
      | [] => .ok st []
      | hw :: _ =>
        match parse_status hw with
        | .error e => handleError st env e
        | .ok message =>
          if message != st.old_message then
            match send_message env.sendOk env.sendErr with
            | .error e => handleError st env e
            | .ok _ =>
                .ok { current_timestamp := pyGet response "current_date",
                      old_message := message } [message]
          else .ok st []

/-- Outcome of a finite prefix of the infinite loop: the loop is still
running, or a cycle crashed the process.  `sent` concatenates the
messages delivered across the cycles. -/
inductive RunOutcome where
  | running (s : LoopState) (sent : List String)
  | crashed (s : LoopState) (sent : List String) (e : PyError)

/-- Iterate `cycle` over a list of per-cycle environments, stopping at a
crash. -/
def run (practicum_token : Option String) (st : LoopState) :
    List CycleEnv → RunOutcome
  | [] => .running st []
  | env :: envs =>
    match cycle practicum_token st env with
    | .crash s sent e => .crashed s sent e
    | .ok s sent =>
      match run practicum_token s envs with
      | .running s2 sent2 => .running s2 (sent ++ sent2)
      | .crashed s2 sent2 e => .crashed s2 (sent ++ sent2) e

/-- Result of `main`'s startup phase (homework.py lines 115-122). -/
inductive StartResult where
  /-- `sys.exit('Выполнение программы остановлено')` ran: the process
  terminated before the `telegram.Bot` was created, before any HTTP
  request was issued, and before the loop was entered. -/
  | exitedBeforeApi
  /-- Startup succeeded: the loop is entered with cursor `int(time.time())`
  and `old_message = ''`. -/
  | loopEntered (st : LoopState)

/-- The startup phase of `main` (homework.py lines 115-122): missing
credentials are fatal before any network activity; otherwise the loop
starts from the current time and an empty `old_message`. -/
def main_start (e : Env) (now : Int) : StartResult :=
  if !check_tokens e then .exitedBeforeApi
  else .loopEntered { current_timestamp := .int now, old_message := "" }

/-- Errors that reach `main`'s catch-all `except Exception` handler, i.e.
match neither `except SendMessageException` nor `except HTTPRequestError`. -/
def caughtByCatchAll : PyError → Bool
  | .sendMessageException _ => false
  | .httpRequestError _ => false
  | _ => true

/-- A homework record `{'homework_name': name, 'status': s}`. -/
def mkHomework (name s : String) : PyVal :=
  PyVal.dict [("homework_name", PyVal.str name), ("status", PyVal.str s)]

/-- Sample approved homework record. -/
def sampleHw : PyVal := mkHomework "proj1" "approved"

/-- The notification `parse_status` derives from `sampleHw`. -/
def sampleMsg : String :=
  "Изменился статус проверки работы \"proj1\". Работа проверена: ревьюеру всё понравилось. Ура!"

/-- A well-formed API payload carrying `sampleHw` and `current_date = cd`. -/
def sampleResp (cd : Int) : PyVal :=
  PyVal.dict [("homeworks", PyVal.list [sampleHw]), ("current_date", PyVal.int cd)]

/-- A cycle in which the HTTP fetch returns `200` with body `sampleResp cd`
and Telegram delivery succeeds. -/
def okEnv (cd : Int) : CycleEnv :=
  { now := 1,
    fetch := FetchEnv.response
      { status_code := 200, reason := "OK", text := "", json := Option.some (sampleResp cd) },
    sendOk := true, sendErr := "" }

/-- A cycle in which `requests.get` raises a transport error; `ok` says
whether a Telegram delivery attempted this cycle would succeed. -/
def transportEnv (ok : Bool) : CycleEnv :=
  { now := 1, fetch := FetchEnv.transportError "connection refused",
    sendOk := ok, sendErr := "Chat not found" }

/-- The diagnostic the catch-all composes for the `TypeError` produced by a
transport failure (see `get_api_answer`). -/
def diagMsg : String := "Сбой в работе программы: exception instance is not callable"

/-- Projection of `CycleResult.state` on the `ok` constructor. -/
theorem state_ok (s : LoopState) (m : List String) : (CycleResult.ok s m).state = s := rfl

/-- Projection of `CycleResult.state` on the `crash` constructor. -/
theorem state_crash (s : LoopState) (m : List String) (e : PyError) :
    (CycleResult.crash s m e).state = s := rfl

/-- Projection of `CycleResult.sent` on the `ok` constructor. -/
theorem sent_ok (s : LoopState) (m : List String) : (CycleResult.ok s m).sent = m := rfl

/-- Projection of `CycleResult.sent` on the `crash` constructor. -/
theorem sent_crash (s : LoopState) (m : List String) (e : PyError) :
    (CycleResult.crash s m e).sent = m := rfl

/-- A `SendMessageException` raised in the `try` body (a failed normal-path
delivery) is logged only: state untouched, nothing sent, loop continues. -/
theorem handleError_sendMsgEx (st : LoopState) (env : CycleEnv) (m : String) :
    handleError st env (PyError.sendMessageException m) = CycleResult.ok st [] := rfl

/-- Catch-all handler, diagnostic equal to `old_message`: nothing is sent
and the state is untouched. -/
theorem handleError_catchall_dup (st : LoopState) (env : CycleEnv) (e : PyError)
    (hc : caughtByCatchAll e = true)
    (heq : "Сбой в работе программы: " ++ e.text = st.old_message) :
    handleError st env e = CycleResult.ok st [] := by
  cases e <;> simp [caughtByCatchAll] at hc <;> simp [handleError, PyError.text] at heq ⊢ <;>
    simp [heq]

/-- Catch-all handler, fresh diagnostic, delivery succeeds: the diagnostic
is sent and recorded in `old_message`; the cursor is untouched. -/
theorem handleError_catchall_send (st : LoopState) (env : CycleEnv) (e : PyError)
    (hc : caughtByCatchAll e = true)
    (hne : "Сбой в работе программы: " ++ e.text ≠ st.old_message)
    (hok : env.sendOk = true) :
    handleError st env e =
      CycleResult.ok ⟨st.current_timestamp, "Сбой в работе программы: " ++ e.text⟩
        ["Сбой в работе программы: " ++ e.text] := by
  cases e <;> simp [caughtByCatchAll] at hc <;>
    simp [handleError, send_message, hok, PyError.text] at hne ⊢ <;> simp [hne]

/-- Catch-all handler, fresh diagnostic, delivery fails: the
`SendMessageException` raised inside the `except` clause escapes the loop. -/
theorem handleError_catchall_noSend (st : LoopState) (env : CycleEnv) (e : PyError)
    (hc : caughtByCatchAll e = true)
    (hne : "Сбой в работе программы: " ++ e.text ≠ st.old_message)
    (hbad : env.sendOk = false) :
    handleError st env e =
      CycleResult.crash st []
        (PyError.sendMessageException ("Ошибка при отправке сообщения " ++ env.sendErr)) := by
  cases e <;> simp [caughtByCatchAll] at hc <;>
    simp [handleError, send_message, hbad, PyError.text] at hne ⊢ <;> simp [hne]

/-- No path of the `except` chain touches the cursor. -/
theorem handleError_cursor (st : LoopState) (env : CycleEnv) (e : PyError) :
    (handleError st env e).state.current_timestamp = st.current_timestamp := by
  cases henv : env.sendOk <;> cases e <;>
    simp [handleError, send_message, henv,
      apply_ite CycleResult.state, apply_ite LoopState.current_timestamp,
      state_ok, state_crash]

/-- The `except` chain sends at most one message, leaves `old_message`
untouched when it sends none, and records the sent text in `old_message`
when it sends one. -/
theorem handleError_dedup (st : LoopState) (env : CycleEnv) (e : PyError) :
    ((handleError st env e).sent = [] →
      (handleError st env e).state.old_message = st.old_message) ∧
    (∀ m, (handleError st env e).sent = [m] →
      (handleError st env e).state.old_message = m) ∧
    (handleError st env e).sent.length ≤ 1 := by
  cases henv : env.sendOk <;> cases e <;>
    simp only [handleError, send_message, henv, Bool.false_eq_true, if_false, if_true,
      reduceIte] <;>
    (try split_ifs) <;> simp [state_ok, state_crash, sent_ok, sent_crash]

/-- A full cycle sends at most one message, leaves `old_message` untouched
when it sends none, and records the sent text in `old_message` when it
sends one — whichever path (normal, dedup-skip, or any handler) it takes. -/
theorem cycle_dedup (token : Option String) (st : LoopState) (env : CycleEnv) :
    ((cycle token st env).sent = [] →
      (cycle token st env).state.old_message = st.old_message) ∧
    (∀ m, (cycle token st env).sent = [m] →
      (cycle token st env).state.old_message = m) ∧
    (cycle token st env).sent.length ≤ 1 := by
  simp only [cycle]
  split
  · exact handleError_dedup st env _
  · split
    · exact handleError_dedup st env _
    · split
      · simp [state_ok, sent_ok]
      · split
        · exact handleError_dedup st env _
        · split
          · split
            · exact handleError_dedup st env _
            · simp [state_ok, sent_ok]
          · simp [state_ok, sent_ok]

/-- Claim C1: a non-200 HTTP status (here 503) does not surface from
`get_api_answer` as `HTTPRequestError`: the `HTTPRequestError` raised at
line 66 is intercepted by the same function's `except Exception` clause
and re-raised as `AnotherEndpointException` wrapping the diagnostic text
(which does carry status code, reason, body and request parameters). -/
theorem C1_http_status_wrapped :
    get_api_answer (Option.some "token") (PyVal.int 100) 1
        (FetchEnv.response ⟨503, "Service Unavailable", "unavailable", Option.none⟩) =
      Except.error (PyError.anotherEndpointException
        ("Ошибка при запросе к " ++ ENDPOINT ++ ": " ++
          httpErrorMessage (Option.some "token")
            ⟨503, "Service Unavailable", "unavailable", Option.none⟩
            [("from_date", PyVal.int 100)])) := rfl

/-- Claim C2, counterexample: the empty mapping is not rejected with a
distinct empty-response error — `check_response` gives it the very same
missing-`homeworks` `KeyError` as a non-empty mapping lacking that key. -/
theorem C2_empty_mapping_not_distinct :
    check_response (PyVal.dict []) =
      Except.error (PyError.keyError "Ключа homeworks не существует") ∧
    check_response (PyVal.dict [("current_date", PyVal.int 1)]) =
      Except.error (PyError.keyError "Ключа homeworks не существует") := ⟨rfl, rfl⟩

/-- Claim C2, amended: an empty mapping fails `check_response` with the
missing-`homeworks`-key `KeyError`; no dedicated empty-payload check
exists. -/
theorem C2_empty_mapping_missing_key :
    check_response (PyVal.dict []) =
      Except.error (PyError.keyError "Ключа homeworks не существует") := rfl

/-- Claim C3, counterexample: a successful cycle with a non-empty homework
list whose derived message equals `old_message` skips the send but does
NOT advance the cursor to the response's `current_date` (here it stays at
100 instead of moving to 200). -/
theorem C3_no_cursor_advance_on_duplicate :
    cycle (Option.some "token") ⟨PyVal.int 100, sampleMsg⟩ (okEnv 200) =
      CycleResult.ok ⟨PyVal.int 100, sampleMsg⟩ [] ∧
    ¬ (cycle (Option.some "token") ⟨PyVal.int 100, sampleMsg⟩ (okEnv 200)).state.current_timestamp
        = pyGet (sampleResp 200) "current_date" :=
  ⟨rfl, fun h => by
    injection (show PyVal.int 100 = PyVal.int 200 from h) with h2
    exact absurd h2 (by decide)⟩

/-- Claim C3, amended: in every cycle in which fetch and validation
succeed, the homework list is non-empty and the derived message equals
`old_message`, the loop skips `send_message` and leaves the whole state —
cursor included — unchanged. -/
theorem C3_duplicate_message_skips_send_state_unchanged (token : Option String)
    (st : LoopState) (env : CycleEnv) (response : PyVal) (hw : PyVal) (rest : List PyVal)
    (h1 : get_api_answer token st.current_timestamp env.now env.fetch = Except.ok response)
    (h2 : check_response response = Except.ok (hw :: rest))
    (h3 : parse_status hw = Except.ok st.old_message) :
    cycle token st env = CycleResult.ok st [] := by
  simp [cycle, h1, h2, h3]

/-- Witness for C3: concrete duplicate-message cycle, state unchanged. -/
theorem C3_witness :
    cycle (Option.some "token") ⟨PyVal.int 100, sampleMsg⟩ (okEnv 200) =
      CycleResult.ok ⟨PyVal.int 100, sampleMsg⟩ [] :=
  C3_duplicate_message_skips_send_state_unchanged (Option.some "token")
    ⟨PyVal.int 100, sampleMsg⟩ (okEnv 200) (sampleResp 200) sampleHw [] rfl rfl rfl

/-- Claim C4: in a cycle whose body raises a generic error (a transport
failure) while the best-effort diagnostic delivery also fails, the
`SendMessageException` raised inside the catch-all `except` clause is
caught by nothing and terminates the process — contradicting the
requirement that a secondary delivery failure never crashes the loop. -/
theorem C4_diagnostic_send_failure_crashes :
    cycle (Option.some "token") ⟨PyVal.int 100, ""⟩ (transportEnv false) =
      CycleResult.crash ⟨PyVal.int 100, ""⟩ []
        (PyError.sendMessageException "Ошибка при отправке сообщения Chat not found") := rfl

/-- Claim C5, counterexample: the cursor is not monotone — a successful
send cycle assigns the server-reported `current_date` verbatim, here
rewinding the cursor from 100 to 50. -/
theorem C5_cursor_can_decrease :
    cycle (Option.some "token") ⟨PyVal.int 100, ""⟩ (okEnv 50) =
      CycleResult.ok ⟨PyVal.int 50, sampleMsg⟩ [sampleMsg] ∧ (50 : Int) < 100 :=
  ⟨rfl, by decide⟩

/-- Claim C5, amended: the cursor is unchanged on every cycle in which the
fetch or the validation failed (it moves only on a successful send cycle,
and then verbatim to the response's `current_date`, which may be lower). -/
theorem C5_cursor_unchanged_on_failure (token : Option String) (st : LoopState)
    (env : CycleEnv) (e : PyError)
    (h : get_api_answer token st.current_timestamp env.now env.fetch = Except.error e ∨
      ∃ response, get_api_answer token st.current_timestamp env.now env.fetch = Except.ok response ∧
        check_response response = Except.error e) :
    (cycle token st env).state.current_timestamp = st.current_timestamp := by
  rcases h with h | ⟨response, h1, h2⟩
  · simp only [cycle, h]
    exact handleError_cursor st env e
  · simp only [cycle, h1, h2]
    exact handleError_cursor st env e

/-- Witness for C5: a transport-failure cycle leaves the cursor at 100. -/
theorem C5_witness :
    (cycle (Option.some "token") ⟨PyVal.int 100, ""⟩ (transportEnv true)).state.current_timestamp
      = PyVal.int 100 :=
  C5_cursor_unchanged_on_failure (Option.some "token") ⟨PyVal.int 100, ""⟩ (transportEnv true)
    (PyError.typeError "exception instance is not callable") (Or.inl rfl)

/-- Claim C6: across two consecutive successful cycles deriving the same
message `m` (new at the start of the first), `send_message` delivers
exactly once — the second occurrence is suppressed by `old_message`. -/
theorem C6_consecutive_identical_messages_single_send (token : Option String)
    (st : LoopState) (env1 env2 : CycleEnv) (r1 r2 hw1 hw2 : PyVal)
    (rest1 rest2 : List PyVal) (m : String)
    (h1 : get_api_answer token st.current_timestamp env1.now env1.fetch = Except.ok r1)
    (h2 : check_response r1 = Except.ok (hw1 :: rest1))
    (h3 : parse_status hw1 = Except.ok m)
    (h4 : m ≠ st.old_message)
    (h5 : env1.sendOk = true)
    (h6 : get_api_answer token (pyGet r1 "current_date") env2.now env2.fetch = Except.ok r2)
    (h7 : check_response r2 = Except.ok (hw2 :: rest2))
    (h8 : parse_status hw2 = Except.ok m) :
    run token st [env1, env2] =
      RunOutcome.running ⟨pyGet r1 "current_date", m⟩ [m] := by
  have hc1 : cycle token st env1 =
      CycleResult.ok ⟨pyGet r1 "current_date", m⟩ [m] := by
    simp [cycle, h1, h2, h3, send_message, h5, bne_iff_ne, h4]
  have hc2 : cycle token ⟨pyGet r1 "current_date", m⟩ env2 =
      CycleResult.ok ⟨pyGet r1 "current_date", m⟩ [] := by
    simp [cycle, h6, h7, h8]
  simp [run, hc1, hc2]

/-- Witness for C6: two concrete identical-status cycles, one delivery. -/
theorem C6_witness :
    run (Option.some "token") ⟨PyVal.int 100, ""⟩ [okEnv 200, okEnv 300] =
      RunOutcome.running ⟨PyVal.int 200, sampleMsg⟩ [sampleMsg] :=
  C6_consecutive_identical_messages_single_send (Option.some "token")
    ⟨PyVal.int 100, ""⟩ (okEnv 200) (okEnv 300) (sampleResp 200) (sampleResp 300)
    sampleHw sampleHw [] [] sampleMsg rfl rfl rfl (by decide) rfl rfl rfl rfl

/-- Claim C7: `parse_status` maps each of the three known status symbols to
the message carrying its fixed verdict sentence, and raises the
unknown-status `KeyError` for every other symbol. -/
theorem C7_parse_status_total (name s : String) :
    parse_status (mkHomework name "approved") =
      Except.ok ("Изменился статус проверки работы \"" ++ name ++ "\". " ++
        "Работа проверена: ревьюеру всё понравилось. Ура!") ∧
    parse_status (mkHomework name "reviewing") =
      Except.ok ("Изменился статус проверки работы \"" ++ name ++ "\". " ++
        "Работа взята на проверку ревьюером.") ∧
    parse_status (mkHomework name "rejected") =
      Except.ok ("Изменился статус проверки работы \"" ++ name ++ "\". " ++
        "Работа проверена: у ревьюера есть замечания.") ∧
    (s ≠ "approved" → s ≠ "reviewing" → s ≠ "rejected" →
      parse_status (mkHomework name s) =
        Except.error (PyError.keyError ("Статус неизвестен: " ++ s))) := by
  refine ⟨rfl, rfl, rfl, fun hs1 hs2 hs3 => ?_⟩
  have hb1 : (s == "approved") = false := beq_eq_false_iff_ne.mpr hs1
  have hb2 : (s == "reviewing") = false := beq_eq_false_iff_ne.mpr hs2
  have hb3 : (s == "rejected") = false := beq_eq_false_iff_ne.mpr hs3
  simp [parse_status, mkHomework, pyGet, statusLookup, HOMEWORK_STATUSES, List.lookup,
    pyStr, hb1, hb2, hb3]

/-- Witness for C7: an unknown status symbol is rejected. -/
theorem C7_witness :
    parse_status (mkHomework "proj1" "unknown") =
      Except.error (PyError.keyError "Статус неизвестен: unknown") :=
  (C7_parse_status_total "proj1" "unknown").2.2.2 (by decide) (by decide) (by decide)

/-- Claim C8: with any one of the three secrets absent, `main` terminates
during startup, before creating the bot, issuing any network call or
entering the loop. -/
theorem C8_missing_secret_exits_before_api (e : Env) (now : Int)
    (h : e.PRACTICUM_TOKEN = Option.none ∨ e.TELEGRAM_TOKEN = Option.none ∨
      e.TELEGRAM_CHAT_ID = Option.none) :
    main_start e now = StartResult.exitedBeforeApi := by
  rcases h with h | h | h <;> simp [main_start, check_tokens, envTruthy, h]

/-- Witness for C8: missing `PRACTICUM_TOKEN` aborts startup. -/
theorem C8_witness :
    main_start ⟨Option.none, Option.some "bot", Option.some "chat"⟩ 5 =
      StartResult.exitedBeforeApi :=
  C8_missing_secret_exits_before_api ⟨Option.none, Option.some "bot", Option.some "chat"⟩ 5
    (Or.inl rfl)

/-- Claim C9: `get_api_answer` sends `from_date = current_timestamp`
verbatim for every nonzero integer cursor, and substitutes the current
wall-clock time for a zero (or any falsy) cursor. -/
theorem C9_from_date_param (n : Int) (now : Int) (h : n ≠ 0) :
    fetchParams (PyVal.int n) now = [("from_date", PyVal.int n)] ∧
    fetchParams (PyVal.int 0) now = [("from_date", PyVal.int now)] ∧
    (∀ v, pyTruthy v = false → fetchParams v now = [("from_date", PyVal.int now)]) := by
  refine ⟨by simp [fetchParams, pyTruthy, h], rfl, fun v hv => by simp [fetchParams, hv]⟩

/-- Witness for C9: cursor 5 is sent verbatim, cursor 0 becomes the clock. -/
theorem C9_witness :
    fetchParams (PyVal.int 5) 7 = [("from_date", PyVal.int 5)] ∧
    fetchParams (PyVal.int 0) 7 = [("from_date", PyVal.int 7)] ∧
    (∀ v, pyTruthy v = false → fetchParams v 7 = [("from_date", PyVal.int 7)]) :=
  C9_from_date_param 5 7 (by decide)

/-- Claim C10: the dedup state is shared between status notifications and
diagnostics: (1) after the catch-all sends a fresh diagnostic,
`old_message` equals that diagnostic; (2) a cycle failing with an
identical diagnostic sends nothing (without even attempting delivery);
(3) every cycle sends at most one message, records a sent text in
`old_message`, and leaves `old_message` untouched when nothing is sent —
so `old_message` always tracks the most recently sent text of either
kind. -/
theorem C10_shared_dedup_state (token : Option String) :
    (∀ (st : LoopState) (env : CycleEnv) (e : PyError),
      caughtByCatchAll e = true →
      get_api_answer token st.current_timestamp env.now env.fetch = Except.error e →
      env.sendOk = true →
      "Сбой в работе программы: " ++ e.text ≠ st.old_message →
      cycle token st env =
        CycleResult.ok ⟨st.current_timestamp, "Сбой в работе программы: " ++ e.text⟩
          ["Сбой в работе программы: " ++ e.text]) ∧
    (∀ (st : LoopState) (env : CycleEnv) (e : PyError),
      caughtByCatchAll e = true →
      get_api_answer token st.current_timestamp env.now env.fetch = Except.error e →
      "Сбой в работе программы: " ++ e.text = st.old_message →
      cycle token st env = CycleResult.ok st []) ∧
    (∀ (st : LoopState) (env : CycleEnv),
      ((cycle token st env).sent = [] →
        (cycle token st env).state.old_message = st.old_message) ∧
      (∀ m, (cycle token st env).sent = [m] →
        (cycle token st env).state.old_message = m) ∧
      (cycle token st env).sent.length ≤ 1) := by
  refine ⟨fun st env e hc h1 hok hne => ?_, fun st env e hc h1 heq => ?_,
    fun st env => cycle_dedup token st env⟩
  · simp only [cycle, h1]
    exact handleError_catchall_send st env e hc hne hok
  · simp only [cycle, h1]
    exact handleError_catchall_dup st env e hc heq

/-- Witness for C10: a transport-failure cycle sends its diagnostic and
records it; the next identical failure sends nothing. -/
theorem C10_witness :
    cycle (Option.some "token") ⟨PyVal.int 100, ""⟩ (transportEnv true) =
      CycleResult.ok ⟨PyVal.int 100, diagMsg⟩ [diagMsg] ∧
    cycle (Option.some "token") ⟨PyVal.int 100, diagMsg⟩ (transportEnv false) =
      CycleResult.ok ⟨PyVal.int 100, diagMsg⟩ [] :=
  ⟨(C10_shared_dedup_state (Option.some "token")).1 ⟨PyVal.int 100, ""⟩ (transportEnv true)
      (PyError.typeError "exception instance is not callable") rfl rfl rfl (by decide),
    (C10_shared_dedup_state (Option.some "token")).2.1 ⟨PyVal.int 100, diagMsg⟩
      (transportEnv false) (PyError.typeError "exception instance is not callable") rfl rfl rfl⟩
